import Mathlib

/-! The header `port/atomic_pointer.h`.

A shallow embedding of `leveldb::port::AtomicPointer` (both class definitions of
`port/atomic_pointer.h`) and of the preprocessor chain that selects one of them.

* A `void*` is an address word.  The header only copies such words, it never
  computes with them, so the word is a natural number and the null pointer is `0`.
* A member function is a state transformer on the object that also records the
  memory events it performs, in program order: plain reads and writes of `rep_`,
  calls of `MemoryBarrier()`, and `std::atomic` loads and stores with their
  `std::memory_order` argument.
* The preprocessor conditionals are functions of the externally defined build flags.
-/

namespace leveldb
namespace port

/-- The value of a `void*`: an address word, `0` for the null pointer. -/
abbrev Ptr := Nat

/-- The `std::memory_order` arguments that occur in the header. -/
inductive memory_order where
  | memory_order_relaxed
  | memory_order_acquire
  | memory_order_release
  deriving DecidableEq, Repr

/-- One memory event of a member function, as written in its body. -/
inductive Event where
  /-- A plain read of the member `rep_`, with the value read. -/
  | read (value : Ptr)
  /-- A plain write `rep_ = v`. -/
  | write (value : Ptr)
  /-- A call `MemoryBarrier();`. -/
  | MemoryBarrier
  /-- A call `rep_.load(order)`, with the value loaded. -/
  | atomic_load (order : memory_order) (value : Ptr)
  /-- A call `rep_.store(v, order)`. -/
  | atomic_store (order : memory_order) (value : Ptr)
  deriving DecidableEq, Repr

/-- A member function body: from the object state to the returned value, the new
object state and the memory events performed, in program order. -/
def Exec (σ α : Type) : Type := σ → α × σ × List Event

/-- The `return` of a body: no state change and no event. -/
def Exec.ret {σ α : Type} (a : α) : Exec σ α := fun s => (a, s, [])

/-- Sequencing of two statements: the second runs on the state left by the first
and its events follow those of the first. -/
def Exec.seq {σ α β : Type} (m : Exec σ α) (k : α → Exec σ β) : Exec σ β := fun s =>
  let r := m s
  let q := k r.1 r.2.1
  (q.1, q.2.1, r.2.2 ++ q.2.2)

instance {σ : Type} : Monad (Exec σ) where
  pure := Exec.ret
  bind := Exec.seq

/-- The value a body returns when run on `s`. -/
def Exec.result {σ α : Type} (m : Exec σ α) (s : σ) : α := (m s).1

/-- The object state a body leaves when run on `s`. -/
def Exec.final {σ α : Type} (m : Exec σ α) (s : σ) : σ := (m s).2.1

/-- The memory events a body performs when run on `s`, in program order. -/
def Exec.events {σ α : Type} (m : Exec σ α) (s : σ) : List Event := (m s).2.2

/-! ## `class AtomicPointer` built on `MemoryBarrier()` (lines 126-179) -/

namespace FenceBased

/-- The object state: `void* rep_;`. -/
structure AtomicPointer where
  rep_ : Ptr
  deriving DecidableEq, Repr

/-- The primitive `MemoryBarrier();`: it changes no object state. -/
def MemoryBarrier : Exec AtomicPointer Unit := fun s => ((), s, [Event.MemoryBarrier])

/-- The primitive rvalue use of `rep_`: a plain read. -/
def readRep : Exec AtomicPointer Ptr := fun s => (s.rep_, s, [Event.read s.rep_])

/-- The primitive `rep_ = v;`: a plain write. -/
def writeRep (v : Ptr) : Exec AtomicPointer Unit := fun _ => ((), ⟨v⟩, [Event.write v])

/-- The constructor `AtomicPointer() { }`: there is no member initialiser, so `rep_`
keeps the word `raw` that its storage held before the construction. -/
def AtomicPointer.default (raw : Ptr) : AtomicPointer := ⟨raw⟩

/-- The constructor `explicit AtomicPointer(void* p) : rep_(p) {}`, on storage that
held the word `raw` before. -/
def AtomicPointer.explicit (_raw : Ptr) (p : Ptr) : AtomicPointer := ⟨p⟩

/-- The body `{ return rep_; }`. -/
def NoBarrier_Load : Exec AtomicPointer Ptr := readRep

/-- The body `{ rep_ = v; }`. -/
def NoBarrier_Store (v : Ptr) : Exec AtomicPointer Unit := writeRep v

/-- The body `{ void* result = rep_; MemoryBarrier(); return result; }`. -/
def Acquire_Load : Exec AtomicPointer Ptr := do
  let result ← readRep
  MemoryBarrier
  return result

/-- The body `{ MemoryBarrier(); rep_ = v; }`. -/
def Release_Store (v : Ptr) : Exec AtomicPointer Unit := do
  MemoryBarrier
  writeRep v

end FenceBased

/-! ## `class AtomicPointer` built on `<cstdatomic>` (lines 183-201) -/

namespace CstdAtomic

/-- The object state: `std::atomic<void*> rep_;`, the word the atomic holds. -/
structure AtomicPointer where
  rep_ : Ptr
  deriving DecidableEq, Repr

/-- The primitive `rep_.load(order)`. -/
def load (order : memory_order) : Exec AtomicPointer Ptr :=
  fun s => (s.rep_, s, [Event.atomic_load order s.rep_])

/-- The primitive `rep_.store(v, order)`. -/
def store (v : Ptr) (order : memory_order) : Exec AtomicPointer Unit :=
  fun _ => ((), ⟨v⟩, [Event.atomic_store order v])

/-- The constructor `AtomicPointer() { }`: `rep_` is default-initialised, which for
the `std::atomic` of `<cstdatomic>` stores nothing, so the atomic keeps the word
`raw` that its storage held before the construction. -/
def AtomicPointer.default (raw : Ptr) : AtomicPointer := ⟨raw⟩

/-- The constructor `explicit AtomicPointer(void* v) : rep_(v) { }`, on storage that
held the word `raw` before. -/
def AtomicPointer.explicit (_raw : Ptr) (v : Ptr) : AtomicPointer := ⟨v⟩

/-- The body `{ return rep_.load(std::memory_order_acquire); }`. -/
def Acquire_Load : Exec AtomicPointer Ptr := load memory_order.memory_order_acquire

/-- The body `{ rep_.store(v, std::memory_order_release); }`. -/
def Release_Store (v : Ptr) : Exec AtomicPointer Unit :=
  store v memory_order.memory_order_release

/-- The body `{ return rep_.load(std::memory_order_relaxed); }`. -/
def NoBarrier_Load : Exec AtomicPointer Ptr := load memory_order.memory_order_relaxed

/-- The body `{ rep_.store(v, std::memory_order_relaxed); }`. -/
def NoBarrier_Store (v : Ptr) : Exec AtomicPointer Unit :=
  store v memory_order.memory_order_relaxed

end CstdAtomic

/-! ## Single-threaded client programs of the four operations -/

/-- One call of the common interface of the two classes. -/
inductive Op where
  | NoBarrier_Load
  | NoBarrier_Store (v : Ptr)
  | Acquire_Load
  | Release_Store (v : Ptr)
  deriving DecidableEq, Repr

namespace FenceBased

/-- One call on the fence-based class: a load yields `some` of the returned pointer,
a store yields `none`. -/
def call : Op → Exec AtomicPointer (Option Ptr)
  | Op.NoBarrier_Load => do let r ← NoBarrier_Load; return some r
  | Op.NoBarrier_Store v => do NoBarrier_Store v; return none
  | Op.Acquire_Load => do let r ← Acquire_Load; return some r
  | Op.Release_Store v => do Release_Store v; return none

/-- A finite sequence of calls on one object, in program order, with what each
call returned. -/
def run : List Op → Exec AtomicPointer (List (Option Ptr))
  | [] => pure []
  | op :: rest => do
    let r ← call op
    let rs ← run rest
    return r :: rs

/-- The program of `n` consecutive `Acquire_Load()` calls with no store between
them, with the values returned, in order. -/
def loads : Nat → Exec AtomicPointer (List Ptr)
  | 0 => pure []
  | n + 1 => do
    let r ← Acquire_Load
    let rs ← loads n
    return r :: rs

end FenceBased

namespace CstdAtomic

/-- One call on the `<cstdatomic>` class: a load yields `some` of the returned
pointer, a store yields `none`. -/
def call : Op → Exec AtomicPointer (Option Ptr)
  | Op.NoBarrier_Load => do let r ← NoBarrier_Load; return some r
  | Op.NoBarrier_Store v => do NoBarrier_Store v; return none
  | Op.Acquire_Load => do let r ← Acquire_Load; return some r
  | Op.Release_Store v => do Release_Store v; return none

/-- A finite sequence of calls on one object, in program order, with what each
call returned. -/
def run : List Op → Exec AtomicPointer (List (Option Ptr))
  | [] => pure []
  | op :: rest => do
    let r ← call op
    let rs ← run rest
    return r :: rs

/-- The program of `n` consecutive `Acquire_Load()` calls with no store between
them, with the values returned, in order. -/
def loads : Nat → Exec AtomicPointer (List Ptr)
  | 0 => pure []
  | n + 1 => do
    let r ← Acquire_Load
    let rs ← loads n
    return r :: rs

end CstdAtomic

/-! ## The preprocessor chain (lines 33-39, 46-86, 89-207) -/

/-- The build flags the header tests with `defined(...)`: `true` when the name is
defined before the header is read.  The names `ARCH_CPU_X86_FAMILY`,
`ARCH_CPU_ARM_FAMILY` and `LEVELDB_HAVE_MEMORY_BARRIER` are the header's own (it
defines them and removes them again at its end) and are not build flags. -/
structure Flags where
  OS_WIN : Bool
  COMPILER_MSVC : Bool
  OS_MACOSX : Bool
  _M_X64 : Bool
  __x86_64__ : Bool
  _M_IX86 : Bool
  __i386__ : Bool
  __i386 : Bool
  __ARMEL__ : Bool
  __GNUC__ : Bool
  __SUNPRO_CC : Bool
  LEVELDB_CSTDATOMIC_PRESENT : Bool
  deriving DecidableEq, Repr

/-- The names the chain of lines 33-39 defines. -/
structure ArchCpu where
  ARCH_CPU_X86_FAMILY : Bool
  ARCH_CPU_ARM_FAMILY : Bool
  deriving DecidableEq, Repr

/-- Lines 33-39: `#if defined(_M_X64) || defined(__x86_64__)` ... `#elif
defined(__ARMEL__)` ... `#endif`; the first group whose condition holds is taken. -/
def archCpu (f : Flags) : ArchCpu :=
  if f._M_X64 || f.__x86_64__ then ⟨true, false⟩
  else if f._M_IX86 || f.__i386__ || f.__i386 then ⟨true, false⟩
  else if f.__ARMEL__ then ⟨false, true⟩
  else ⟨false, false⟩

/-- The group of the chain of lines 46-86 that is compiled: where `MemoryBarrier()`
comes from. -/
inductive BarrierGroup where
  /-- Lines 46-49, "Windows on x86": `windows.h` provides `MemoryBarrier`. -/
  | windows
  /-- Lines 52-58, "Gcc on x86": `__asm__ __volatile__("" : : : "memory")`. -/
  | gcc
  /-- Lines 61-67, "Sun Studio": `asm volatile("" : : : "memory")`. -/
  | sunStudio
  /-- Lines 70-74, "Mac OS": `OSMemoryBarrier()`. -/
  | macOS
  /-- Lines 77-84, "ARM": `pLinuxKernelMemoryBarrier()`. -/
  | arm
  deriving DecidableEq, Repr

/-- Lines 46-86: the `#if` / `#elif` chain that defines `MemoryBarrier()`; the first
group whose condition holds is compiled, `none` when no condition holds. -/
def barrierGroup (f : Flags) : Option BarrierGroup :=
  if f.OS_WIN && f.COMPILER_MSVC && (archCpu f).ARCH_CPU_X86_FAMILY then
    some BarrierGroup.windows
  else if (archCpu f).ARCH_CPU_X86_FAMILY && f.__GNUC__ then some BarrierGroup.gcc
  else if (archCpu f).ARCH_CPU_X86_FAMILY && f.__SUNPRO_CC then some BarrierGroup.sunStudio
  else if f.OS_MACOSX then some BarrierGroup.macOS
  else if (archCpu f).ARCH_CPU_ARM_FAMILY then some BarrierGroup.arm
  else none

/-- Whether `LEVELDB_HAVE_MEMORY_BARRIER` is defined at line 89: every group of the
chain of lines 46-86 defines it and nothing else does. -/
def LEVELDB_HAVE_MEMORY_BARRIER (f : Flags) : Bool := (barrierGroup f).isSome

/-- What the chain of lines 89-207 compiles. -/
inductive Backend where
  /-- Lines 126-179: the class built on `MemoryBarrier()`. -/
  | fenceBased
  /-- Lines 183-201: the class built on `<cstdatomic>`. -/
  | cstdatomic
  /-- Line 205: the `#error` directive, with its text; no class is defined. -/
  | error (message : String)
  deriving DecidableEq, Repr

/-- Lines 89-207: `#if defined(LEVELDB_HAVE_MEMORY_BARRIER)` ... `#elif
defined(LEVELDB_CSTDATOMIC_PRESENT)` ... `#else #error ...`. -/
def selectBackend (f : Flags) : Backend :=
  if LEVELDB_HAVE_MEMORY_BARRIER f then Backend.fenceBased
  else if f.LEVELDB_CSTDATOMIC_PRESENT then Backend.cstdatomic
  else Backend.error "Please implement AtomicPointer for this platform."

/-- The memory events of `Acquire_Load()` of the class a backend defines, on an
object holding `w`; `none` when no class is defined. -/
def Backend.acquireLoadEvents (w : Ptr) : Backend → Option (List Event)
  | Backend.fenceBased => some (FenceBased.Acquire_Load.events ⟨w⟩)
  | Backend.cstdatomic => some (CstdAtomic.Acquire_Load.events ⟨w⟩)
  | Backend.error _ => none

/-- The memory events of `Release_Store(v)` of the class a backend defines, on an
object holding `w`; `none` when no class is defined. -/
def Backend.releaseStoreEvents (w v : Ptr) : Backend → Option (List Event)
  | Backend.fenceBased => some ((FenceBased.Release_Store v).events ⟨w⟩)
  | Backend.cstdatomic => some ((CstdAtomic.Release_Store v).events ⟨w⟩)
  | Backend.error _ => none

/-- Whether an event orders memory for an acquiring load: a barrier, or an atomic
load with `memory_order_acquire`. -/
def Event.ordersAcquire : Event → Bool
  | Event.MemoryBarrier => true
  | Event.atomic_load memory_order.memory_order_acquire _ => true
  | _ => false

/-- Whether an event orders memory for a releasing store: a barrier, or an atomic
store with `memory_order_release`. -/
def Event.ordersRelease : Event → Bool
  | Event.MemoryBarrier => true
  | Event.atomic_store memory_order.memory_order_release _ => true
  | _ => false

/-- The condition of one of the five groups of lines 46-86 holds: Windows with MSVC
on x86, GCC on x86, Sun Studio on x86, Mac OS, or ARM. -/
def someBarrierGroupApplies (f : Flags) : Prop :=
  (f.OS_WIN = true ∧ f.COMPILER_MSVC = true ∧ (archCpu f).ARCH_CPU_X86_FAMILY = true) ∨
  ((archCpu f).ARCH_CPU_X86_FAMILY = true ∧ f.__GNUC__ = true) ∨
  ((archCpu f).ARCH_CPU_X86_FAMILY = true ∧ f.__SUNPRO_CC = true) ∨
  f.OS_MACOSX = true ∨
  (archCpu f).ARCH_CPU_ARM_FAMILY = true

instance (f : Flags) : Decidable (someBarrierGroupApplies f) := by
  unfold someBarrierGroupApplies
  infer_instance

end port
end leveldb

open leveldb.port

/-! ## Helper lemmas -/

/-- On the fence-based class `Acquire_Load()` returns the stored word and leaves the
object as it was. -/
theorem fence_acquire_load_run (c : FenceBased.AtomicPointer) :
    FenceBased.Acquire_Load c = (c.rep_, c, [Event.read c.rep_, Event.MemoryBarrier]) := rfl

/-- On the `<cstdatomic>` class `Acquire_Load()` returns the stored word and leaves
the object as it was. -/
theorem cstd_acquire_load_run (c : CstdAtomic.AtomicPointer) :
    CstdAtomic.Acquire_Load c =
      (c.rep_, c, [Event.atomic_load memory_order.memory_order_acquire c.rep_]) := rfl

/-- The values returned by `n` consecutive acquire loads on the fence-based class,
and the object they leave. -/
theorem fence_loads_run (n : Nat) (c : FenceBased.AtomicPointer) :
    (FenceBased.loads n c).1 = List.replicate n c.rep_ ∧ (FenceBased.loads n c).2.1 = c := by
  induction n with
  | zero => exact ⟨rfl, rfl⟩
  | succ k ih =>
    obtain ⟨h1, h2⟩ := ih
    constructor
    · show c.rep_ :: (FenceBased.loads k c).1 = List.replicate (k + 1) c.rep_
      rw [h1]; rfl
    · exact h2

/-- The values returned by `n` consecutive acquire loads on the `<cstdatomic>` class,
and the object they leave. -/
theorem cstd_loads_run (n : Nat) (c : CstdAtomic.AtomicPointer) :
    (CstdAtomic.loads n c).1 = List.replicate n c.rep_ ∧ (CstdAtomic.loads n c).2.1 = c := by
  induction n with
  | zero => exact ⟨rfl, rfl⟩
  | succ k ih =>
    obtain ⟨h1, h2⟩ := ih
    constructor
    · show c.rep_ :: (CstdAtomic.loads k c).1 = List.replicate (k + 1) c.rep_
      rw [h1]; rfl
    · exact h2

/-- The result and the final object of a call on the fence-based class, by kind of
call: a load returns the stored word and keeps it, a store installs its argument. -/
theorem fence_call_run (op : Op) (c : FenceBased.AtomicPointer) :
    (FenceBased.call op c).1 =
        (match op with
          | Op.NoBarrier_Load => some c.rep_
          | Op.Acquire_Load => some c.rep_
          | Op.NoBarrier_Store _ => none
          | Op.Release_Store _ => none) ∧
      (FenceBased.call op c).2.1.rep_ =
        (match op with
          | Op.NoBarrier_Load => c.rep_
          | Op.Acquire_Load => c.rep_
          | Op.NoBarrier_Store v => v
          | Op.Release_Store v => v) := by
  cases op <;> exact ⟨rfl, rfl⟩

/-- The result and the final object of a call on the `<cstdatomic>` class, by kind of
call: a load returns the stored word and keeps it, a store installs its argument. -/
theorem cstd_call_run (op : Op) (c : CstdAtomic.AtomicPointer) :
    (CstdAtomic.call op c).1 =
        (match op with
          | Op.NoBarrier_Load => some c.rep_
          | Op.Acquire_Load => some c.rep_
          | Op.NoBarrier_Store _ => none
          | Op.Release_Store _ => none) ∧
      (CstdAtomic.call op c).2.1.rep_ =
        (match op with
          | Op.NoBarrier_Load => c.rep_
          | Op.Acquire_Load => c.rep_
          | Op.NoBarrier_Store v => v
          | Op.Release_Store v => v) := by
  cases op <;> exact ⟨rfl, rfl⟩

/-- Two objects of the two classes that hold the same word return the same values
from every call of a sequence and hold the same word after it. -/
theorem run_agree (ops : List Op) :
    ∀ (c : FenceBased.AtomicPointer) (d : CstdAtomic.AtomicPointer), c.rep_ = d.rep_ →
      (FenceBased.run ops c).1 = (CstdAtomic.run ops d).1 ∧
        (FenceBased.run ops c).2.1.rep_ = (CstdAtomic.run ops d).2.1.rep_ := by
  induction ops with
  | nil => intro c d h; exact ⟨rfl, h⟩
  | cons op rest ih =>
    intro c d h
    obtain ⟨f1, f2⟩ := fence_call_run op c
    obtain ⟨g1, g2⟩ := cstd_call_run op d
    have hres : (FenceBased.call op c).1 = (CstdAtomic.call op d).1 := by
      rw [f1, g1, h]
    have hst : (FenceBased.call op c).2.1.rep_ = (CstdAtomic.call op d).2.1.rep_ := by
      rw [f2, g2, h]
    obtain ⟨i1, i2⟩ := ih (FenceBased.call op c).2.1 (CstdAtomic.call op d).2.1 hst
    constructor
    · show (FenceBased.call op c).1 :: (FenceBased.run rest (FenceBased.call op c).2.1).1 =
        (CstdAtomic.call op d).1 :: (CstdAtomic.run rest (CstdAtomic.call op d).2.1).1
      rw [hres, i1]
    · exact i2

/-- The names of lines 33-39 in terms of the build flags: `ARCH_CPU_X86_FAMILY` is
defined exactly when one of the five x86 names is, `ARCH_CPU_ARM_FAMILY` exactly
when `__ARMEL__` is and no x86 name is. -/
theorem archCpu_defined (f : Flags) :
    ((archCpu f).ARCH_CPU_X86_FAMILY = true ↔
        (f._M_X64 = true ∨ f.__x86_64__ = true ∨ f._M_IX86 = true ∨ f.__i386__ = true ∨
          f.__i386 = true)) ∧
      ((archCpu f).ARCH_CPU_ARM_FAMILY = true ↔
        (f.__ARMEL__ = true ∧ (archCpu f).ARCH_CPU_X86_FAMILY = false)) := by
  rcases f with ⟨_, _, _, a, b, c, d, e, g, _, _, _⟩
  cases a <;> cases b <;> cases c <;> cases d <;> cases e <;> cases g <;> simp [archCpu]

/-- `LEVELDB_HAVE_MEMORY_BARRIER` is defined at line 89 exactly when the condition of
one of the five groups of lines 46-86 holds. -/
theorem have_memory_barrier_iff (f : Flags) :
    LEVELDB_HAVE_MEMORY_BARRIER f = true ↔ someBarrierGroupApplies f := by
  unfold LEVELDB_HAVE_MEMORY_BARRIER barrierGroup someBarrierGroupApplies
  generalize archCpu f = a
  rcases a with ⟨x, r⟩
  rcases f with ⟨w, m, o, _, _, _, _, _, _, g, s, _⟩
  cases w <;> cases m <;> cases o <;> cases g <;> cases s <;> cases x <;> cases r <;> simp

/-! ## The claims -/

/-- C2: in both classes, on every object state `c` and for every pointer `v` (the
null pointer `0` included), `Release_Store(v)` followed at once by `Acquire_Load()`
on the same object returns exactly `v`. -/
theorem release_store_then_acquire_load (v : Ptr) (c : FenceBased.AtomicPointer)
    (d : CstdAtomic.AtomicPointer) :
    (Exec.seq (FenceBased.Release_Store v) (fun _ => FenceBased.Acquire_Load)).result c = v ∧
      (Exec.seq (CstdAtomic.Release_Store v) (fun _ => CstdAtomic.Acquire_Load)).result d = v :=
  ⟨rfl, rfl⟩

/-- C3: in both classes, on every object state `c` and for every pointer `v` (the
null pointer `0` included), `NoBarrier_Store(v)` followed at once by
`NoBarrier_Load()` on the same object returns exactly `v`. -/
theorem nobarrier_store_then_nobarrier_load (v : Ptr) (c : FenceBased.AtomicPointer)
    (d : CstdAtomic.AtomicPointer) :
    (Exec.seq (FenceBased.NoBarrier_Store v) (fun _ => FenceBased.NoBarrier_Load)).result c
        = v ∧
      (Exec.seq (CstdAtomic.NoBarrier_Store v) (fun _ => CstdAtomic.NoBarrier_Load)).result d
        = v :=
  ⟨rfl, rfl⟩

/-- C4: in the fence-based class the memory events of one `Acquire_Load()` call are
exactly the read of `rep_` followed by `MemoryBarrier()`: one barrier only, placed
after the read, and the value returned is the one that read obtained; the object is
left as it was. -/
theorem acquire_load_reads_then_fences (c : FenceBased.AtomicPointer) :
    FenceBased.Acquire_Load.events c = [Event.read c.rep_, Event.MemoryBarrier] ∧
      (FenceBased.Acquire_Load.events c).count Event.MemoryBarrier = 1 ∧
      FenceBased.Acquire_Load.result c = c.rep_ ∧
      FenceBased.Acquire_Load.final c = c := by
  refine ⟨rfl, ?_, rfl, rfl⟩
  show [Event.read c.rep_, Event.MemoryBarrier].count Event.MemoryBarrier = 1
  simp

/-- C5: in the fence-based class the memory events of one `Release_Store(v)` call are
exactly `MemoryBarrier()` followed by the write `rep_ = v`: one barrier only, placed
before the write; the object then holds `v`. -/
theorem release_store_fences_then_writes (c : FenceBased.AtomicPointer) (v : Ptr) :
    (FenceBased.Release_Store v).events c = [Event.MemoryBarrier, Event.write v] ∧
      ((FenceBased.Release_Store v).events c).count Event.MemoryBarrier = 1 ∧
      ((FenceBased.Release_Store v).final c).rep_ = v := by
  refine ⟨rfl, ?_, rfl⟩
  show [Event.MemoryBarrier, Event.write v].count Event.MemoryBarrier = 1
  simp

/-- C6: in both classes, on every object state and for every `n`, the `n`
consecutive `Acquire_Load()` calls of `loads n` return `n` values that are all the
stored word, hence all the same, and the object after them is the object before
them. -/
theorem acquire_load_idempotent (n : Nat) (c : FenceBased.AtomicPointer)
    (d : CstdAtomic.AtomicPointer) :
    ((FenceBased.loads n).result c = List.replicate n c.rep_ ∧
        (FenceBased.loads n).final c = c) ∧
      ((CstdAtomic.loads n).result d = List.replicate n d.rep_ ∧
        (CstdAtomic.loads n).final d = d) :=
  ⟨fence_loads_run n c, cstd_loads_run n d⟩

/-- C7: for every assignment of the build flags the fence-based class is selected
exactly when the condition of one of the five `MemoryBarrier` groups holds, whatever
`LEVELDB_CSTDATOMIC_PRESENT` is; the `<cstdatomic>` class is selected exactly when no
such condition holds and `LEVELDB_CSTDATOMIC_PRESENT` is defined; and exactly one of
the three outcomes (fence-based class, `<cstdatomic>` class, `#error`) is selected. -/
theorem selectBackend_order (f : Flags) :
    (selectBackend f = Backend.fenceBased ↔ someBarrierGroupApplies f) ∧
      (selectBackend { f with LEVELDB_CSTDATOMIC_PRESENT := true } = Backend.fenceBased ↔
        someBarrierGroupApplies f) ∧
      (selectBackend f = Backend.cstdatomic ↔
        (¬ someBarrierGroupApplies f ∧ f.LEVELDB_CSTDATOMIC_PRESENT = true)) ∧
      (selectBackend f = Backend.fenceBased ∨ selectBackend f = Backend.cstdatomic ∨
        selectBackend f = Backend.error "Please implement AtomicPointer for this platform.") ∧
      ¬ (selectBackend f = Backend.fenceBased ∧ selectBackend f = Backend.cstdatomic) ∧
      ¬ (selectBackend f = Backend.fenceBased ∧
        selectBackend f = Backend.error "Please implement AtomicPointer for this platform.") ∧
      ¬ (selectBackend f = Backend.cstdatomic ∧
        selectBackend f = Backend.error "Please implement AtomicPointer for this platform.") := by
  have hb := have_memory_barrier_iff f
  have hb2 := have_memory_barrier_iff { f with LEVELDB_CSTDATOMIC_PRESENT := true }
  have same : someBarrierGroupApplies { f with LEVELDB_CSTDATOMIC_PRESENT := true } ↔
      someBarrierGroupApplies f := Iff.rfl
  rw [same] at hb2
  unfold selectBackend
  by_cases h : someBarrierGroupApplies f
  · have e := hb.mpr h
    have e2 := hb2.mpr h
    simp [e, e2, h]
  · have e : LEVELDB_HAVE_MEMORY_BARRIER f = false := by
      cases hm : LEVELDB_HAVE_MEMORY_BARRIER f
      · rfl
      · exact absurd (hb.mp hm) h
    have e2 : LEVELDB_HAVE_MEMORY_BARRIER { f with LEVELDB_CSTDATOMIC_PRESENT := true }
        = false := by
      cases hm : LEVELDB_HAVE_MEMORY_BARRIER { f with LEVELDB_CSTDATOMIC_PRESENT := true }
      · rfl
      · exact absurd (hb2.mp hm) h
    cases hc : f.LEVELDB_CSTDATOMIC_PRESENT <;> simp [e, e2, h, hc]

/-- C8: for every assignment of the build flags the selection ends in the `#error`
of line 205, and then defines no class, exactly when the condition of no
`MemoryBarrier` group holds and `LEVELDB_CSTDATOMIC_PRESENT` is not defined; and
whenever a class is defined, its `Acquire_Load()` performs a barrier or an
acquire-ordered atomic load and its `Release_Store(v)` performs a barrier or a
release-ordered atomic store. -/
theorem selectBackend_error_iff (f : Flags) (w v : Ptr) :
    (selectBackend f = Backend.error "Please implement AtomicPointer for this platform." ↔
        (¬ someBarrierGroupApplies f ∧ f.LEVELDB_CSTDATOMIC_PRESENT = false)) ∧
      ((selectBackend f).acquireLoadEvents w = none ↔
        (¬ someBarrierGroupApplies f ∧ f.LEVELDB_CSTDATOMIC_PRESENT = false)) ∧
      (selectBackend f = Backend.error "Please implement AtomicPointer for this platform." ∨
        ((∃ es, (selectBackend f).acquireLoadEvents w = some es ∧
            es.any Event.ordersAcquire = true) ∧
          (∃ es, (selectBackend f).releaseStoreEvents w v = some es ∧
            es.any Event.ordersRelease = true))) := by
  have hb := have_memory_barrier_iff f
  unfold selectBackend
  by_cases h : someBarrierGroupApplies f
  · have e := hb.mpr h
    simp only [e, h, if_true]
    refine ⟨by simp, by simp [Backend.acquireLoadEvents], Or.inr ⟨⟨_, rfl, rfl⟩, ⟨_, rfl, rfl⟩⟩⟩
  · have e : LEVELDB_HAVE_MEMORY_BARRIER f = false := by
      cases hm : LEVELDB_HAVE_MEMORY_BARRIER f
      · rfl
      · exact absurd (hb.mp hm) h
    cases hc : f.LEVELDB_CSTDATOMIC_PRESENT
    · simp [e, h, hc, Backend.acquireLoadEvents]
    · simp only [e, h, hc, if_true]
      refine ⟨by simp, by simp [Backend.acquireLoadEvents],
        Or.inr ⟨⟨_, rfl, rfl⟩, ⟨_, rfl, rfl⟩⟩⟩

/-- C9: for every initial value `p` and every finite sequence `ops` of the four
operations applied to an object constructed with `AtomicPointer(p)`, the fence-based
class and the `<cstdatomic>` class return the same value from every load and hold
the same word at the end. -/
theorem backends_agree_sequentially (raw raw2 p : Ptr) (ops : List Op) :
    (FenceBased.run ops).result (FenceBased.AtomicPointer.explicit raw p) =
        (CstdAtomic.run ops).result (CstdAtomic.AtomicPointer.explicit raw2 p) ∧
      ((FenceBased.run ops).final (FenceBased.AtomicPointer.explicit raw p)).rep_ =
        ((CstdAtomic.run ops).final (CstdAtomic.AtomicPointer.explicit raw2 p)).rep_ :=
  run_agree ops (FenceBased.AtomicPointer.explicit raw p)
    (CstdAtomic.AtomicPointer.explicit raw2 p) rfl

/-- C10, as stated, fails: two objects of the fence-based class made by the default
constructor `AtomicPointer() { }`, one on storage that held `0` and one on storage
that held `1`, return different values from `NoBarrier_Load()` before any store. -/
theorem default_constructed_loads_differ :
    FenceBased.NoBarrier_Load.result (FenceBased.AtomicPointer.default 0) ≠
      FenceBased.NoBarrier_Load.result (FenceBased.AtomicPointer.default 1) := by
  decide

/-- C10, amended: in both classes, for every `p` (the null pointer `0` included) an
object made by `AtomicPointer(p)` returns `p` from `NoBarrier_Load()` and from
`Acquire_Load()` before any store, whatever its storage held before; an object made
by the default constructor `AtomicPointer()` returns from both loads the word `raw`
its storage held before the construction. -/
theorem constructed_initial_value (raw p : Ptr) :
    (FenceBased.NoBarrier_Load.result (FenceBased.AtomicPointer.explicit raw p) = p ∧
        FenceBased.Acquire_Load.result (FenceBased.AtomicPointer.explicit raw p) = p ∧
        CstdAtomic.NoBarrier_Load.result (CstdAtomic.AtomicPointer.explicit raw p) = p ∧
        CstdAtomic.Acquire_Load.result (CstdAtomic.AtomicPointer.explicit raw p) = p) ∧
      (FenceBased.NoBarrier_Load.result (FenceBased.AtomicPointer.default raw) = raw ∧
        FenceBased.Acquire_Load.result (FenceBased.AtomicPointer.default raw) = raw ∧
        CstdAtomic.NoBarrier_Load.result (CstdAtomic.AtomicPointer.default raw) = raw ∧
        CstdAtomic.Acquire_Load.result (CstdAtomic.AtomicPointer.default raw) = raw) :=
  ⟨⟨rfl, rfl, rfl, rfl⟩, ⟨rfl, rfl, rfl, rfl⟩⟩
